import Mathlib

/-!
Shallow embedding of the chatbot server in `app.py`.

The module translates, as computable Lean functions, the pieces of the
program that the verified properties concern:

* the provider configuration table `API_CONFIG` (parameterised over the three
  environment-provided keys),
* the provider dispatch `call_ai_api` (exceptions become an `Except PyErr`
  result; the outbound HTTP transport `requests.post` is an explicit
  function argument, so that independence from it expresses "no transport
  call is performed"),
* the three flow handlers `handle_symptom_check`, `handle_doctor_chat`,
  `handle_patient_chat` (the in-place mutation of the caller's `symptoms`
  list by `handle_symptom_check` is made explicit by returning the updated
  list),
* the request handler `chat`, modelled per session: the argument
  `sess : Option Session` is the entry of the process-wide dict
  `chat_sessions` for the request's `user_id` (`none` when absent), and the
  first component of the result is that entry after the request.
-/

set_option autoImplicit false

/-- A `{role, content}` message record. -/
structure MessageRec where
  role : String
  content : String
deriving Repr, DecidableEq

/-- One entry of `chat_sessions`: `{history, chat_state, symptoms}`. -/
structure Session where
  history : List MessageRec
  chat_state : String
  symptoms : List String
deriving Repr, DecidableEq

/-- The three environment-provided credentials (`os.getenv` yields `none`
when the variable is unset). -/
structure ApiKeys where
  openai : Option String
  anthropic : Option String
  groq : Option String
deriving Repr, DecidableEq

/-- One entry of the `API_CONFIG` table. -/
structure ProviderConfig where
  url : String
  key : Option String
  model : String
deriving Repr, DecidableEq

/-- The static `API_CONFIG` dict; `.get provider` on an unknown name is
`none`. -/
def API_CONFIG (keys : ApiKeys) (provider : String) : Option ProviderConfig :=
  if provider = "openai" then
    some ⟨"https://api.openai.com/v1/chat/completions", keys.openai, "gpt-4o"⟩
  else if provider = "anthropic" then
    some ⟨"https://api.anthropic.com/v1/messages", keys.anthropic, "claude-3-5-sonnet-20241022"⟩
  else if provider = "groq" then
    some ⟨"https://api.groq.com/openai/v1/chat/completions", keys.groq, "llama3-70b-8192"⟩
  else
    none

/-- Python truthiness of `config["key"]`: `not key` holds for `None` and
for the empty string. -/
def keyMissing : Option String → Bool
  | none => true
  | some k => k = ""

/-- The headers dict built by `call_ai_api`: `Content-Type` plus an
optional `Authorization` and an optional `x-api-key` entry. -/
structure Headers where
  contentType : String
  authorization : Option String
  xApiKey : Option String
deriving Repr, DecidableEq

/-- The JSON body built by `call_ai_api`. -/
structure RequestBody where
  model : String
  messages : List MessageRec
  max_tokens : Nat
deriving Repr, DecidableEq

/-- An outbound `requests.post` call: target URL, headers and JSON body. -/
structure ApiRequest where
  url : String
  headers : Headers
  body : RequestBody
deriving Repr, DecidableEq

/-- The parts of an upstream HTTP response that `call_ai_api` reads: the
status code, the value at `json()["content"][0]["text"]` when that path
exists, and the value at `json()["choices"][0]["message"]["content"]` when
that path exists. -/
structure HttpResponse where
  status : Nat
  contentText : Option String
  choiceContent : Option String
deriving Repr, DecidableEq

/-- Python exceptions that the `try` block of `chat` can observe. -/
inductive PyErr where
  /-- `raise ValueError(...)` in `call_ai_api`. -/
  | valueError (msg : String)
  /-- `response.raise_for_status()` on a non-success status. -/
  | httpStatusError (status : Nat)
  /-- missing key/index while extracting the reply from the JSON. -/
  | keyError
  /-- `requests.post` itself failing. -/
  | connectionError
deriving Repr, DecidableEq

/-- The transport primitive: what `requests.post` does. An `.error` is a
raised connection exception; a returned `HttpResponse` may still carry a
non-success status. -/
def Transport : Type := ApiRequest → Except PyErr HttpResponse

/-- The request (headers and JSON body) that `call_ai_api` builds for a
given provider before posting: a bearer `Authorization` header by default;
for `"anthropic"` an `x-api-key` header is added and `Authorization` is
deleted, and `max_tokens` is (re)assigned to `500`. -/
def buildRequest (config : ProviderConfig) (provider prompt : String)
    (context : List MessageRec) : ApiRequest :=
  let key := config.key.getD ""
  let headers : Headers := ⟨"application/json", some ("Bearer " ++ key), none⟩
  let body : RequestBody := ⟨config.model, context ++ [⟨"user", prompt⟩], 500⟩
  if provider = "anthropic" then
    ⟨config.url, ⟨headers.contentType, none, some key⟩, { body with max_tokens := 500 }⟩
  else
    ⟨config.url, headers, body⟩

/-- `response.raise_for_status()`: raises for status codes `>= 400`. -/
def raise_for_status (r : HttpResponse) : Except PyErr Unit :=
  if 400 ≤ r.status then .error (.httpStatusError r.status) else .ok ()

/-- Reply extraction: `"anthropic"` reads `content[0].text`, the others
read `choices[0].message.content`; a missing path raises. -/
def extractReply (provider : String) (r : HttpResponse) : Except PyErr String :=
  if provider = "anthropic" then
    match r.contentText with
    | some t => .ok t
    | none => .error .keyError
  else
    match r.choiceContent with
    | some t => .ok t
    | none => .error .keyError

/-- `call_ai_api(provider, prompt, context)`: config lookup and key check
(`if not config or not config["key"]: raise ValueError(...)`), request
building, transport call, `raise_for_status`, reply extraction. -/
def call_ai_api (keys : ApiKeys) (transport : Transport)
    (provider prompt : String) (context : List MessageRec) : Except PyErr String :=
  match API_CONFIG keys provider with
  | none =>
      .error (.valueError ("Provider " ++ provider ++ " not configured or missing API key"))
  | some config =>
      if keyMissing config.key then
        .error (.valueError ("Provider " ++ provider ++ " not configured or missing API key"))
      else do
        let resp ← transport (buildRequest config provider prompt context)
        raise_for_status resp
        extractReply provider resp

/-- The triage prompt f-string of `handle_symptom_check`, embedding
`", ".join(symptoms)`. -/
def symptomPrompt (symptoms : List String) : String :=
  "\n        You are a medical assistant analyzing symptoms for a patient in rural Kenya. The patient has reported: "
    ++ String.intercalate ", " symptoms
    ++ ". \n        Provide a concise possible diagnosis (e.g., cold, flu, malaria) and recommend consulting a doctor. \n        Avoid definitive diagnoses; emphasize professional medical advice.\n    "

/-- The consultation prompt f-string of `handle_doctor_chat`. -/
def doctorPrompt (message : String) : String :=
  "\n        You are a medical assistant simulating a doctor consultation. The user has asked: \""
    ++ message
    ++ "\". \n        Provide general advice, avoid definitive diagnoses, and emphasize consulting a licensed doctor. \n        Keep the response concise and professional.\n    "

/-- The community prompt f-string of `handle_patient_chat`. -/
def patientPrompt (message : String) : String :=
  "\n        You are a friendly assistant in a patient community chat. The user shared: \""
    ++ message
    ++ "\". \n        Respond empathetically, encouraging sharing or advice from others, and keep the tone supportive.\n    "

/-- The button markup appended to a successful triage reply. -/
def connectDoctorBtn : String :=
  "<br><button onclick=\"handleChatbotOption(\x27doctor\x27)\" class=\"bg-blue-500 text-white px-4 py-2 rounded hover:bg-blue-600\">Connect with a Doctor</button>"

/-- The button markup appended to a successful doctor/patient reply. -/
def backToMenuBtn : String :=
  "<br><button onclick=\"handleChatbotOption(\x27initial\x27)\" class=\"bg-blue-500 text-white px-4 py-2 rounded hover:bg-blue-600\">Back to Menu</button>"

/-- The follow-up prompt of the symptom flow. -/
def morePrompt : String := "Please share another symptom or type \x27done\x27."

/-- `message.lower()` (ASCII case mapping, which agrees with Python on the
inputs of this flow; defined over the character list so it computes by
kernel reduction). -/
def lowerStr (s : String) : String := String.mk (s.data.map Char.toLower)

/-- `handle_symptom_check(message, symptoms, history)`. The Python function
mutates the `symptoms` list in place (`symptoms.append(message.lower())`),
so the embedding returns the updated list alongside the
`(response, model_used)` result (or the raised exception). -/
def handle_symptom_check (keys : ApiKeys) (transport : Transport) (message : String)
    (symptoms : List String) (history : List MessageRec) :
    List String × Except PyErr (String × Option String) :=
  if message = "" then
    (symptoms, .ok ("Please describe your symptoms (e.g., fever, cough, headache).", none))
  else
    let symptoms := symptoms ++ [lowerStr message]
    if symptoms.length < 3 ∧ lowerStr message ≠ "done" then
      (symptoms, .ok (morePrompt, none))
    else
      match call_ai_api keys transport "groq" (symptomPrompt symptoms) history with
      | .ok response => (symptoms, .ok (response ++ connectDoctorBtn, some "Llama 3.1 (Groq)"))
      | .error e => (symptoms, .error e)

/-- `handle_doctor_chat(message, history)`. -/
def handle_doctor_chat (keys : ApiKeys) (transport : Transport) (message : String)
    (history : List MessageRec) : Except PyErr (String × Option String) :=
  match call_ai_api keys transport "anthropic" (doctorPrompt message) history with
  | .ok response => .ok (response ++ backToMenuBtn, some "Claude 3.5 Sonnet")
  | .error e => .error e

/-- `handle_patient_chat(message, history)`. -/
def handle_patient_chat (keys : ApiKeys) (transport : Transport) (message : String)
    (history : List MessageRec) : Except PyErr (String × Option String) :=
  match call_ai_api keys transport "openai" (patientPrompt message) history with
  | .ok response => .ok (response ++ backToMenuBtn, some "ChatGPT (GPT-4o)")
  | .error e => .error e

/-- The menu markup of the `initial` branch (a Python triple-quoted
string, newlines and indentation included). -/
def menuResponse : String :=
  "\n                Please select an option:<br>\n                <button onclick=\"handleChatbotOption(\x27symptom\x27)\" class=\"bg-blue-500 text-white px-4 py-2 rounded hover:bg-blue-600\">Check Symptoms</button>\n                <button onclick=\"handleChatbotOption(\x27doctor\x27)\" class=\"bg-blue-500 text-white px-4 py-2 rounded hover:bg-blue-600\">Talk to a Doctor</button>\n                <button onclick=\"handleChatbotOption(\x27patient\x27)\" class=\"bg-blue-500 text-white px-4 py-2 rounded hover:bg-blue-600\">Join Patient Community</button>\n            "

/-- The response of the `else` (unrecognized state) branch. -/
def invalidStateMsg : String := "Invalid state. Please start over."

/-- The response of the `except` branch. -/
def apologyMsg : String := "Sorry, an error occurred. Please try again."

/-- The validation response for an empty message outside `initial`. -/
def emptyMsgPrompt : String := "Please enter a message."

/-- The JSON body returned by `chat`. The validation short-circuit return
omits the `model_used` key; it is modelled as `none` there. -/
structure ChatResponse where
  response : String
  chat_state : String
  symptoms : List String
  model_used : Option String
deriving Repr, DecidableEq

/-- The parsed request JSON, after `data.get` defaults
(`user_id="default"`, `message=""`, `chat_state="initial"`,
`symptoms=[]`). `message` is the raw value; `chat` strips it. -/
structure ChatRequest where
  user_id : String
  message : String
  chat_state : String
  symptoms : List String
deriving Repr, DecidableEq

/-- `message.strip()`: drop leading and trailing whitespace. (Defined over
the character list so it computes by kernel reduction.) -/
def stripMsg (s : String) : String :=
  String.mk (((s.data.dropWhile Char.isWhitespace).reverse.dropWhile Char.isWhitespace).reverse)

/-- The body of the `try` block of `chat`, dispatching on `chat_state`
after the session updates. The session is threaded explicitly: on an
exception the returned session is the state at the raise point (the
in-place `symptoms.append` of a failed symptom turn included), exactly the
state the `except` branch leaves behind. -/
def tryDispatch (keys : ApiKeys) (transport : Transport) (chat_state message : String)
    (s : Session) : Session × Except PyErr (String × Option String) :=
  if chat_state = "initial" then
    (s, .ok (menuResponse, none))
  else if chat_state = "symptom" then
    match handle_symptom_check keys transport message s.symptoms s.history with
    | (symptoms2, .ok (response, model_used)) =>
        let s := { s with symptoms := symptoms2 }
        let s := { s with
          symptoms := if response ≠ "" then [] else s.symptoms,
          chat_state := if response ≠ "" then "initial" else "symptom" }
        (s, .ok (response, model_used))
    | (symptoms2, .error e) => ({ s with symptoms := symptoms2 }, .error e)
  else if chat_state = "doctor" then
    match handle_doctor_chat keys transport message s.history with
    | .ok r => ({ s with chat_state := "initial" }, .ok r)
    | .error e => (s, .error e)
  else if chat_state = "patient" then
    match handle_patient_chat keys transport message s.history with
    | .ok r => ({ s with chat_state := "initial" }, .ok r)
    | .error e => (s, .error e)
  else
    (s, .ok (invalidStateMsg, none))

/-- The `/chat` request handler, per session: `sess` is
`chat_sessions.get(user_id)` before the request, the first result
component is that entry afterwards (`none` only on the validation
short-circuit with no pre-existing entry, which creates nothing). -/
def chat (keys : ApiKeys) (transport : Transport) (sess : Option Session)
    (data : ChatRequest) : Option Session × ChatResponse :=
  let message := stripMsg data.message
  let chat_state := data.chat_state
  let symptoms := data.symptoms
  if message = "" ∧ chat_state ≠ "initial" then
    (sess, ⟨emptyMsgPrompt, chat_state, symptoms, none⟩)
  else
    let s0 : Session := sess.getD ⟨[], "initial", []⟩
    let s1 : Session :=
      if message ≠ "" then { s0 with history := s0.history ++ [⟨"user", message⟩] } else s0
    let s2 : Session := { s1 with chat_state := chat_state, symptoms := symptoms }
    match tryDispatch keys transport chat_state message s2 with
    | (s3, .ok (response, model_used)) =>
        let s4 : Session :=
          if response ≠ "" then { s3 with history := s3.history ++ [⟨"assistant", response⟩] } else s3
        (some s4, ⟨response, s4.chat_state, s4.symptoms, model_used⟩)
    | (s3, .error _) =>
        (some s3, ⟨apologyMsg, "initial", [], none⟩)

/-- Keys with every provider unset. -/
def noKeys : ApiKeys := ⟨none, none, none⟩

/-- Keys with every provider configured. -/
def allKeys : ApiKeys := ⟨some "sk-openai", some "sk-anthropic", some "sk-groq"⟩

/-- A transport on which `requests.post` always raises. -/
def failTransport : Transport := fun _ => .error .connectionError

/-- A transport that always answers `200` with reply text `"ANSWER"` in
both provider shapes. -/
def okTransport : Transport := fun _ => .ok ⟨200, some "ANSWER", some "ANSWER"⟩

/-- The content of the last message of a request body, if any. -/
def lastContent (req : ApiRequest) : Option String :=
  (req.body.messages.getLast?).map MessageRec.content

/-- A transport that answers `200` and echoes the prompt (the content of
the last posted message) back in both provider reply shapes. -/
def echoTransport : Transport := fun req => .ok ⟨200, lastContent req, lastContent req⟩

/-- Python truthiness of the whole `config or key` check: true when the
provider is unknown to `API_CONFIG` or its key is `None`/empty. -/
def providerUnconfigured (keys : ApiKeys) (provider : String) : Bool :=
  match API_CONFIG keys provider with
  | none => true
  | some config => keyMissing config.key

example : stripMsg "  fever " = "fever" := rfl

example :
    handle_symptom_check allKeys failTransport "fever" [] [] =
      (["fever"], .ok (morePrompt, none)) := rfl

example :
    (chat allKeys failTransport none ⟨"u", "fever", "symptom", []⟩).2.chat_state = "initial" :=
  rfl

/-- Claim C1. The spec states that in state `"symptom"` a non-empty
message with collected count `< 3` and different from `"done"` keeps
`chat_state` at `"symptom"` with the message retained in the symptom list.
The code instead tests the truthiness of `response` — which is a non-empty
string on the follow-up path too — so `chat_state` is reset to
`"initial"` and `symptoms` to `[]` on every symptom turn. This theorem
evaluates the handler at the failing input (first symptom `"fever"`,
count `0 < 3`): the follow-up prompt is returned and no provider call is
made (the transport always raises, yet no error surfaces), but the state
is `"initial"` and the symptom list empty, contradicting the claim. The
second conjunct shows the third-message half of the claim (count reaching
3 does trigger the triage call and reset). -/
theorem c1_symptom_followup_resets_state :
    chat allKeys failTransport none ⟨"default", "fever", "symptom", []⟩ =
      (some ⟨[⟨"user", "fever"⟩, ⟨"assistant", morePrompt⟩], "initial", []⟩,
        ⟨morePrompt, "initial", [], none⟩) ∧
    chat allKeys okTransport none ⟨"default", "headache", "symptom", ["fever", "cough"]⟩ =
      (some ⟨[⟨"user", "headache"⟩, ⟨"assistant", "ANSWER" ++ connectDoctorBtn⟩], "initial", []⟩,
        ⟨"ANSWER" ++ connectDoctorBtn, "initial", [], some "Llama 3.1 (Groq)"⟩) :=
  ⟨rfl, rfl⟩

/-- Claim C5: a request whose stripped message is empty while
`chat_state ≠ "initial"` short-circuits with the validation message: the
stored session entry is untouched (not even created), no provider call is
made (the result does not depend on the transport), and the returned
`chat_state` and `symptoms` are the caller-supplied values. -/
theorem c5_empty_message_short_circuit (keys : ApiKeys) (transport : Transport)
    (sess : Option Session) (data : ChatRequest)
    (hmsg : stripMsg data.message = "") (hstate : data.chat_state ≠ "initial") :
    chat keys transport sess data =
      (sess, ⟨emptyMsgPrompt, data.chat_state, data.symptoms, none⟩) := by
  simp [chat, hmsg, hstate]

/-- Witness for C5 at a concrete input: a whitespace-only message in state
`"doctor"` with a pre-existing session. -/
theorem c5_witness :
    chat noKeys failTransport (some ⟨[⟨"user", "x"⟩], "doctor", ["a"]⟩)
        ⟨"u", "   ", "doctor", ["a"]⟩ =
      (some ⟨[⟨"user", "x"⟩], "doctor", ["a"]⟩, ⟨emptyMsgPrompt, "doctor", ["a"], none⟩) :=
  c5_empty_message_short_circuit noKeys failTransport
    (some ⟨[⟨"user", "x"⟩], "doctor", ["a"]⟩) ⟨"u", "   ", "doctor", ["a"]⟩ rfl (by decide)

/-- Claim C7: for every provider that is unknown or whose credential is
absent/empty, `call_ai_api` raises the `ValueError` before any transport
call — the result is this error for every transport, so no outbound call
can have been performed, and the error is returned (propagated), not
swallowed. -/
theorem c7_unconfigured_provider_raises (keys : ApiKeys) (provider prompt : String)
    (context : List MessageRec)
    (h : providerUnconfigured keys provider = true) :
    ∀ transport : Transport,
      call_ai_api keys transport provider prompt context =
        .error (.valueError ("Provider " ++ provider ++ " not configured or missing API key")) := by
  intro transport
  unfold providerUnconfigured at h
  unfold call_ai_api
  cases hc : API_CONFIG keys provider with
  | none => simp
  | some config =>
      rw [hc] at h
      have hk : keyMissing config.key = true := h
      simp [hk]

/-- Witness for C7: an unset anthropic key, and an unknown provider name,
each with a live transport. -/
theorem c7_witness :
    call_ai_api noKeys okTransport "anthropic" "p" [] =
      .error (.valueError ("Provider " ++ "anthropic" ++ " not configured or missing API key")) ∧
    call_ai_api allKeys okTransport "mistral" "p" [] =
      .error (.valueError ("Provider " ++ "mistral" ++ " not configured or missing API key")) :=
  ⟨c7_unconfigured_provider_raises noKeys "anthropic" "p" [] rfl okTransport,
   c7_unconfigured_provider_raises allKeys "mistral" "p" [] rfl okTransport⟩

/-- Claim C8: the built request's authentication headers are
provider-specific and mutually exclusive — for `"anthropic"` the
`x-api-key` header carries the credential and no `Authorization` header is
present; for `"openai"` and `"groq"` the bearer `Authorization` header is
present and no `x-api-key` header. -/
theorem c8_auth_headers_provider_specific (config : ProviderConfig) (prompt : String)
    (context : List MessageRec) :
    ((buildRequest config "anthropic" prompt context).headers.xApiKey =
        some (config.key.getD "") ∧
      (buildRequest config "anthropic" prompt context).headers.authorization = none) ∧
    ((buildRequest config "openai" prompt context).headers.authorization =
        some ("Bearer " ++ config.key.getD "") ∧
      (buildRequest config "openai" prompt context).headers.xApiKey = none) ∧
    ((buildRequest config "groq" prompt context).headers.authorization =
        some ("Bearer " ++ config.key.getD "") ∧
      (buildRequest config "groq" prompt context).headers.xApiKey = none) :=
  ⟨⟨rfl, rfl⟩, ⟨rfl, rfl⟩, rfl, rfl⟩

/-- Claim C9: for every provider, the request body that `call_ai_api`
posts carries exactly the prior history followed by one new user-role
entry holding the prompt, and `max_tokens` is exactly `500`. -/
theorem c9_payload_messages_and_budget (config : ProviderConfig) (provider prompt : String)
    (context : List MessageRec) :
    (buildRequest config provider prompt context).body.messages =
      context ++ [⟨"user", prompt⟩] ∧
    (buildRequest config provider prompt context).body.max_tokens = 500 := by
  unfold buildRequest
  by_cases h : provider = "anthropic" <;> simp [h]

/-- Helper: a raised exception in `handle_doctor_chat` reaches the
`except` branch of `chat` untouched — the payload is the apology with
reset fields while the stored entry keeps state `"doctor"`, the
caller-supplied symptoms, and the in-flight user message as the last
history entry (no assistant append). -/
theorem chat_doctor_fail_aux (keys : ApiKeys) (transport : Transport) (sess : Option Session)
    (uid m : String) (syms : List String) (e : PyErr)
    (hmsg : stripMsg m ≠ "")
    (hfail : handle_doctor_chat keys transport (stripMsg m)
        ((sess.getD ⟨[], "initial", []⟩).history ++ [⟨"user", stripMsg m⟩]) = .error e) :
    chat keys transport sess ⟨uid, m, "doctor", syms⟩ =
      (some ⟨(sess.getD ⟨[], "initial", []⟩).history ++ [⟨"user", stripMsg m⟩], "doctor", syms⟩,
        ⟨apologyMsg, "initial", [], none⟩) := by
  simp [chat, tryDispatch, hmsg, hfail]

/-- Helper: a raised exception in `handle_symptom_check` reaches the
`except` branch of `chat` with the in-place symptom append preserved in
the stored entry and state `"symptom"` left in place. -/
theorem chat_symptom_fail_aux (keys : ApiKeys) (transport : Transport) (sess : Option Session)
    (uid m : String) (syms syms2 : List String) (e : PyErr)
    (hmsg : stripMsg m ≠ "")
    (hfail : handle_symptom_check keys transport (stripMsg m) syms
        ((sess.getD ⟨[], "initial", []⟩).history ++ [⟨"user", stripMsg m⟩]) = (syms2, .error e)) :
    chat keys transport sess ⟨uid, m, "symptom", syms⟩ =
      (some ⟨(sess.getD ⟨[], "initial", []⟩).history ++ [⟨"user", stripMsg m⟩], "symptom", syms2⟩,
        ⟨apologyMsg, "initial", [], none⟩) := by
  simp [chat, tryDispatch, hmsg, hfail]

/-- Helper: when the transport always raises, `call_ai_api` yields some
exception whatever the provider and prompt. -/
theorem call_ai_api_error_of_transport_error (keys : ApiKeys) (transport : Transport)
    (e : PyErr) (htr : ∀ r, transport r = .error e)
    (provider prompt : String) (context : List MessageRec) :
    ∃ e2, call_ai_api keys transport provider prompt context = .error e2 := by
  unfold call_ai_api
  cases hc : API_CONFIG keys provider with
  | none => exact ⟨_, rfl⟩
  | some config =>
      by_cases hk : keyMissing config.key
      · simp [hk]
      · simp only [hk, htr, if_false, Bool.false_eq_true, if_neg, not_false_eq_true]
        exact ⟨e, rfl⟩

/-- Helper: when the transport always raises, `handle_doctor_chat` yields
some exception. -/
theorem handle_doctor_chat_error_of_transport_error (keys : ApiKeys) (transport : Transport)
    (e : PyErr) (htr : ∀ r, transport r = .error e)
    (message : String) (history : List MessageRec) :
    ∃ e2, handle_doctor_chat keys transport message history = .error e2 := by
  obtain ⟨e2, h2⟩ := call_ai_api_error_of_transport_error keys transport e htr
    "anthropic" (doctorPrompt message) history
  exact ⟨e2, by simp [handle_doctor_chat, h2]⟩

/-- Helper: when the transport always raises, the `"done"` terminator
still gets appended to the symptom list and the triage call then yields
some exception. -/
theorem handle_symptom_done_error_of_transport_error (keys : ApiKeys) (transport : Transport)
    (e : PyErr) (htr : ∀ r, transport r = .error e)
    (syms : List String) (history : List MessageRec) :
    ∃ e2, handle_symptom_check keys transport "done" syms history =
      (syms ++ ["done"], .error e2) := by
  obtain ⟨e2, h2⟩ := call_ai_api_error_of_transport_error keys transport e htr
    "groq" (symptomPrompt (syms ++ ["done"])) history
  refine ⟨e2, ?_⟩
  have hlow : lowerStr "done" = "done" := rfl
  simp [handle_symptom_check, hlow, h2]

/-- Claim C3: for every request in state `"doctor"` whose provider
dispatch raises, the payload is the generic apology with
`chat_state = "initial"`, `symptoms = []` and `model_used = none`, while
the in-flight user message remains the last history entry of the stored
session — no assistant message is appended for the failed turn. -/
theorem c3_doctor_failure_payload (keys : ApiKeys) (transport : Transport)
    (sess : Option Session) (uid m : String) (syms : List String) (e : PyErr)
    (hmsg : stripMsg m ≠ "")
    (hfail : handle_doctor_chat keys transport (stripMsg m)
        ((sess.getD ⟨[], "initial", []⟩).history ++ [⟨"user", stripMsg m⟩]) = .error e) :
    chat keys transport sess ⟨uid, m, "doctor", syms⟩ =
      (some ⟨(sess.getD ⟨[], "initial", []⟩).history ++ [⟨"user", stripMsg m⟩], "doctor", syms⟩,
        ⟨apologyMsg, "initial", [], none⟩) :=
  chat_doctor_fail_aux keys transport sess uid m syms e hmsg hfail

/-- Witness for C3: a failing transport in state `"doctor"` on a fresh
session. -/
theorem c3_witness :
    chat allKeys failTransport (some ⟨[], "initial", []⟩) ⟨"u", "I feel sick", "doctor", []⟩ =
      (some ⟨[⟨"user", "I feel sick"⟩], "doctor", []⟩, ⟨apologyMsg, "initial", [], none⟩) :=
  c3_doctor_failure_payload allKeys failTransport (some ⟨[], "initial", []⟩)
    "u" "I feel sick" [] .connectionError (by decide) rfl

/-- Claim C4: when dispatch raises, the `except` branch writes nothing to
the stored session: in state `"doctor"` the stored `chat_state` stays
`"doctor"` and the stored symptoms stay the caller-supplied list, and in a
failed `"symptom"` triage turn (message `"done"`) the stored list keeps
the entry appended before the call — in both cases diverging from the
returned payload, which reports `chat_state = "initial"` and
`symptoms = []`. -/
theorem c4_except_branch_no_session_write (keys : ApiKeys) (transport : Transport)
    (e : PyErr) (htr : ∀ r, transport r = .error e)
    (sess : Option Session) (uid m : String) (syms : List String)
    (hmsg : stripMsg m ≠ "") :
    chat keys transport sess ⟨uid, m, "doctor", syms⟩ =
      (some ⟨(sess.getD ⟨[], "initial", []⟩).history ++ [⟨"user", stripMsg m⟩], "doctor", syms⟩,
        ⟨apologyMsg, "initial", [], none⟩) ∧
    chat keys transport sess ⟨uid, "done", "symptom", syms⟩ =
      (some ⟨(sess.getD ⟨[], "initial", []⟩).history ++ [⟨"user", "done"⟩], "symptom",
          syms ++ ["done"]⟩,
        ⟨apologyMsg, "initial", [], none⟩) := by
  constructor
  · obtain ⟨e2, h2⟩ := handle_doctor_chat_error_of_transport_error keys transport e htr
      (stripMsg m) ((sess.getD ⟨[], "initial", []⟩).history ++ [⟨"user", stripMsg m⟩])
    exact chat_doctor_fail_aux keys transport sess uid m syms e2 hmsg h2
  · obtain ⟨e2, h2⟩ := handle_symptom_done_error_of_transport_error keys transport e htr
      syms ((sess.getD ⟨[], "initial", []⟩).history ++ [⟨"user", "done"⟩])
    exact chat_symptom_fail_aux keys transport sess uid "done" syms (syms ++ ["done"]) e2
      (by decide) h2

/-- Witness for C4: a failing transport, a pre-existing session carrying
one prior symptom; in both flows the stored entry and the returned payload
disagree on `chat_state` and `symptoms`. -/
theorem c4_witness :
    chat allKeys failTransport (some ⟨[], "initial", []⟩) ⟨"u", "hi", "doctor", ["fever"]⟩ =
      (some ⟨[⟨"user", "hi"⟩], "doctor", ["fever"]⟩, ⟨apologyMsg, "initial", [], none⟩) ∧
    chat allKeys failTransport (some ⟨[], "initial", []⟩) ⟨"u", "done", "symptom", ["fever"]⟩ =
      (some ⟨[⟨"user", "done"⟩], "symptom", ["fever", "done"]⟩,
        ⟨apologyMsg, "initial", [], none⟩) :=
  c4_except_branch_no_session_write allKeys failTransport .connectionError (fun _ => rfl)
    (some ⟨[], "initial", []⟩) "u" "hi" ["fever"] (by decide)

/-- Counterexample to claim C2 as stated: after a request carrying the
unrecognized `chat_state` `"bogus"` with a non-empty message, the stored
`chat_state` is `"bogus"` — outside the fixed enum — and the session
history was mutated further: both the user message and the invalid-state
response were appended. -/
theorem c2_counterexample :
    (chat noKeys failTransport none ⟨"u", "hi", "bogus", []⟩).1 =
      some ⟨[⟨"user", "hi"⟩, ⟨"assistant", invalidStateMsg⟩], "bogus", []⟩ ∧
    ("bogus" ≠ "initial" ∧ "bogus" ≠ "symptom" ∧ "bogus" ≠ "doctor" ∧ "bogus" ≠ "patient") :=
  ⟨rfl, by decide⟩

/-- Claim C2 amended: a request with an unrecognized `chat_state` and a
non-empty message gets the explicit invalid-state response with
`model_used = none` and no provider call (the result is
transport-independent); but the handler stores the caller-supplied
unrecognized value as `chat_state` (and echoes it in the payload), stores
the caller-supplied symptoms, and appends the invalid-state response to
history as an assistant entry. -/
theorem c2_invalid_state_stored (keys : ApiKeys) (transport : Transport)
    (sess : Option Session) (data : ChatRequest)
    (hmsg : stripMsg data.message ≠ "")
    (h1 : data.chat_state ≠ "initial") (h2 : data.chat_state ≠ "symptom")
    (h3 : data.chat_state ≠ "doctor") (h4 : data.chat_state ≠ "patient") :
    chat keys transport sess data =
      (some ⟨(sess.getD ⟨[], "initial", []⟩).history ++
          [⟨"user", stripMsg data.message⟩, ⟨"assistant", invalidStateMsg⟩],
        data.chat_state, data.symptoms⟩,
      ⟨invalidStateMsg, data.chat_state, data.symptoms, none⟩) := by
  simp [chat, tryDispatch, hmsg, h1, h2, h3, h4, invalidStateMsg]

/-- Witness for the amended C2 at a concrete input. -/
theorem c2_witness :
    chat allKeys okTransport (some ⟨[⟨"user", "x"⟩], "doctor", ["a"]⟩)
        ⟨"u", "Hi", "weird", ["s"]⟩ =
      (some ⟨[⟨"user", "x"⟩, ⟨"user", "Hi"⟩, ⟨"assistant", invalidStateMsg⟩], "weird", ["s"]⟩,
        ⟨invalidStateMsg, "weird", ["s"], none⟩) :=
  c2_invalid_state_stored allKeys okTransport (some ⟨[⟨"user", "x"⟩], "doctor", ["a"]⟩)
    ⟨"u", "Hi", "weird", ["s"]⟩ (by decide) (by decide) (by decide) (by decide) (by decide)

/-- Counterexample to claim C6 as stated: a single `chat_state="initial"`
request from a fresh user id appends two entries to the session history —
the user message and the assistant menu — not at most one. -/
theorem c6_counterexample :
    (chat noKeys failTransport none ⟨"u", "hi", "initial", []⟩).1 =
      some ⟨[⟨"user", "hi"⟩, ⟨"assistant", menuResponse⟩], "initial", []⟩ ∧
    ((chat noKeys failTransport none ⟨"u", "hi", "initial", []⟩).1.getD
        ⟨[], "initial", []⟩).history.length = 2 :=
  ⟨rfl, rfl⟩

/-- Claim C6 amended: two identical `chat_state="initial"` requests from a
fresh user id produce identical menu responses with no provider call (the
result is transport-independent), and each call appends exactly one
user-message entry plus one assistant menu entry to the session history. -/
theorem c6_initial_menu_idempotent (keys : ApiKeys) (transport : Transport)
    (uid m : String) (syms : List String) (hmsg : stripMsg m ≠ "") :
    (chat keys transport none ⟨uid, m, "initial", syms⟩).2 =
      (chat keys transport (chat keys transport none ⟨uid, m, "initial", syms⟩).1
        ⟨uid, m, "initial", syms⟩).2 ∧
    (chat keys transport none ⟨uid, m, "initial", syms⟩).2.response = menuResponse ∧
    (chat keys transport none ⟨uid, m, "initial", syms⟩).1 =
      some ⟨[⟨"user", stripMsg m⟩, ⟨"assistant", menuResponse⟩], "initial", syms⟩ ∧
    (chat keys transport (chat keys transport none ⟨uid, m, "initial", syms⟩).1
        ⟨uid, m, "initial", syms⟩).1 =
      some ⟨[⟨"user", stripMsg m⟩, ⟨"assistant", menuResponse⟩,
        ⟨"user", stripMsg m⟩, ⟨"assistant", menuResponse⟩], "initial", syms⟩ := by
  have hmenu : menuResponse ≠ "" := by decide
  have h1 : chat keys transport none ⟨uid, m, "initial", syms⟩ =
      (some ⟨[⟨"user", stripMsg m⟩, ⟨"assistant", menuResponse⟩], "initial", syms⟩,
        ⟨menuResponse, "initial", syms, none⟩) := by
    simp [chat, tryDispatch, hmsg, hmenu]
  have h2 : chat keys transport
      (some ⟨[⟨"user", stripMsg m⟩, ⟨"assistant", menuResponse⟩], "initial", syms⟩)
      ⟨uid, m, "initial", syms⟩ =
      (some ⟨[⟨"user", stripMsg m⟩, ⟨"assistant", menuResponse⟩,
          ⟨"user", stripMsg m⟩, ⟨"assistant", menuResponse⟩], "initial", syms⟩,
        ⟨menuResponse, "initial", syms, none⟩) := by
    simp [chat, tryDispatch, hmsg, hmenu]
  simp [h1, h2]

/-- Witness for the amended C6 at a concrete input: two identical
`"initial"` requests with message `"hi"` from a fresh user id. -/
theorem c6_witness :
    (chat noKeys okTransport none ⟨"fresh", "hi", "initial", []⟩).2 =
      (chat noKeys okTransport (chat noKeys okTransport none ⟨"fresh", "hi", "initial", []⟩).1
        ⟨"fresh", "hi", "initial", []⟩).2 ∧
    (chat noKeys okTransport none ⟨"fresh", "hi", "initial", []⟩).2.response = menuResponse ∧
    (chat noKeys okTransport none ⟨"fresh", "hi", "initial", []⟩).1 =
      some ⟨[⟨"user", "hi"⟩, ⟨"assistant", menuResponse⟩], "initial", []⟩ ∧
    (chat noKeys okTransport (chat noKeys okTransport none ⟨"fresh", "hi", "initial", []⟩).1
        ⟨"fresh", "hi", "initial", []⟩).1 =
      some ⟨[⟨"user", "hi"⟩, ⟨"assistant", menuResponse⟩,
        ⟨"user", "hi"⟩, ⟨"assistant", menuResponse⟩], "initial", []⟩ :=
  c6_initial_menu_idempotent noKeys okTransport "fresh" "hi" [] (by decide)

/-- Claim C10: in the symptom flow every non-empty message — the
terminator `"done"` included — is lowercased and appended to the symptom
list before the threshold check, so on a triage turn the provider is
invoked with the prompt built from the appended list, which contains the
lowercased triggering message. -/
theorem c10_lowercased_append_before_triage (keys : ApiKeys) (transport : Transport)
    (message : String) (symptoms : List String) (history : List MessageRec)
    (hmsg : message ≠ "")
    (htrig : 3 ≤ (symptoms ++ [lowerStr message]).length ∨ lowerStr message = "done") :
    (handle_symptom_check keys transport message symptoms history).1 =
      symptoms ++ [lowerStr message] ∧
    lowerStr message ∈ symptoms ++ [lowerStr message] ∧
    (handle_symptom_check keys transport message symptoms history).2 =
      (match call_ai_api keys transport "groq"
          (symptomPrompt (symptoms ++ [lowerStr message])) history with
        | .ok r => .ok (r ++ connectDoctorBtn, some "Llama 3.1 (Groq)")
        | .error e => .error e) := by
  have hcond : ¬((symptoms ++ [lowerStr message]).length < 3 ∧ lowerStr message ≠ "done") := by
    rcases htrig with h | h
    · intro hc
      omega
    · intro hc
      exact hc.2 h
  unfold handle_symptom_check
  simp only [hmsg, if_neg, hcond, if_false]
  cases call_ai_api keys transport "groq"
      (symptomPrompt (symptoms ++ [lowerStr message])) history with
  | ok r => simp
  | error e => simp

/-- Witness for C10 at a concrete input: the terminator `"Done"` with one
prior symptom and an echoing transport — the triage reply embeds the
prompt built from `["fever", "done"]`, with `"done"` appearing as a
symptom. -/
theorem c10_witness :
    (handle_symptom_check allKeys echoTransport "Done" ["fever"] []).1 = ["fever", "done"] ∧
    ("done" : String) ∈ (["fever", "done"] : List String) ∧
    (handle_symptom_check allKeys echoTransport "Done" ["fever"] []).2 =
      .ok (symptomPrompt ["fever", "done"] ++ connectDoctorBtn, some "Llama 3.1 (Groq)") :=
  c10_lowercased_append_before_triage allKeys echoTransport "Done" ["fever"] []
    (by decide) (Or.inr rfl)
